import Mathlib

/-!
Shallow embedding of the pcm-to-mp3-wasm TypeScript wrappers.

The repository wraps a prebuilt FFmpeg WebAssembly binary behind two thin
converter classes:
  * `packages/core-mp3-node/dist/esm/index.js`  (Node.js wrapper, `PcmToMp3Converter`)
  * `packages/core-mp3/dist/esm/index.js` plus `worker.js` (browser wrapper,
    main-thread class talking to a Web Worker over postMessage)
plus shared constants in `packages/core-mp3/dist/esm/const.js` and the type
definitions declaring the `PcmFormat` string union.

The FFmpeg core binary itself (`ffmpeg-core.js` / `ffmpeg-core.wasm`) is not
part of the TypeScript sources; it is treated as an opaque environment: a
function from a command line and a virtual filesystem to an exit code and an
updated filesystem.  The wrapper logic (option merging, empty-input
short-circuit, MEMFS file handling, error paths, terminate and reload, message
transfer lists) is translated statement by statement below.
-/

/-- Raw byte buffers (JS `Uint8Array` contents). -/
abbrev Bytes := List Nat

/-- The seven PCM sample-format tags of the `PcmFormat` string union in
`types.ts`: `s16le | s16be | s24le | s32le | f32le | f64le | u8`. -/
inductive PcmFormat where
  | s16le
  | s16be
  | s24le
  | s32le
  | f32le
  | f64le
  | u8
deriving DecidableEq

/-- The exact string tag of a `PcmFormat`, as spelled in the TypeScript union. -/
def PcmFormat.tag : PcmFormat → String
  | .s16le => "s16le"
  | .s16be => "s16be"
  | .s24le => "s24le"
  | .s32le => "s32le"
  | .f32le => "f32le"
  | .f64le => "f64le"
  | .u8 => "u8"

/-- All seven formats, in declaration order of the TypeScript union. -/
def allPcmFormats : List PcmFormat :=
  [.s16le, .s16be, .s24le, .s32le, .f32le, .f64le, .u8]

/-- Parse a string tag back to a `PcmFormat`: the set of accepted tags. -/
def PcmFormat.ofTag (s : String) : Option PcmFormat :=
  allPcmFormats.find? (fun f => f.tag = s)

/-- Caller-supplied `PcmToMp3Options`: every field optional (`none` models an
omitted JS property). -/
structure PcmToMp3Options where
  sampleRate : Option Nat
  channels : Option Nat
  bitrate : Option Nat
  format : Option PcmFormat
deriving DecidableEq

/-- Empty options object `{}` (all fields omitted). -/
def PcmToMp3Options.empty : PcmToMp3Options := ⟨none, none, none, none⟩

/-- Fully resolved options (`Required<PcmToMp3Options>` in the sources). -/
structure MergedOptions where
  sampleRate : Nat
  channels : Nat
  bitrate : Nat
  format : PcmFormat
deriving DecidableEq

/-- `DEFAULT_OPTIONS` from `const.js` (browser) and `index.js` (node); both
copies are textually identical. -/
def DEFAULT_OPTIONS : MergedOptions :=
  ⟨44100, 1, 128, .s16le⟩

/-- The object spread `{ ...DEFAULT_OPTIONS, ...options }` performed at the top
of both `convert` implementations: a present field overrides the default, an
omitted field keeps it. -/
def mergeOptions (o : PcmToMp3Options) : MergedOptions :=
  ⟨o.sampleRate.getD DEFAULT_OPTIONS.sampleRate,
   o.channels.getD DEFAULT_OPTIONS.channels,
   o.bitrate.getD DEFAULT_OPTIONS.bitrate,
   o.format.getD DEFAULT_OPTIONS.format⟩

/-- The Emscripten MEMFS virtual filesystem: an association list from paths to
byte contents.  Later entries are shadowed by earlier ones. -/
abbrev FS := List (String × Bytes)

/-- `FS.writeFile(path, data)`: create or overwrite a file. -/
def FS.writeFile (fs : FS) (path : String) (data : Bytes) : FS :=
  (path, data) :: fs.filter (fun p => p.1 ≠ path)

/-- Look a file up; `none` when the file does not exist. -/
def FS.lookup (fs : FS) (path : String) : Option Bytes :=
  (fs.find? (fun p => p.1 = path)).map Prod.snd

/-- Whether a file exists. -/
def FS.containsFile (fs : FS) (path : String) : Bool :=
  (fs.lookup path).isSome

/-- `FS.readFile(path)`: returns the contents, or fails (throws in JS) when the
file does not exist. -/
def FS.readFileE (fs : FS) (path : String) : Except String Bytes :=
  match fs.lookup path with
  | some d => .ok d
  | none => .error ("FS error: no such file " ++ path)

/-- `FS.unlink(path)` without a surrounding try/catch: fails (throws in JS)
when the file does not exist. -/
def FS.unlinkE (fs : FS) (path : String) : Except String FS :=
  if fs.containsFile path then .ok (fs.filter (fun p => p.1 ≠ path))
  else .error ("FS error: no such file " ++ path)

/-- `try { FS.unlink(path) } catch { /* ignore */ }`: remove the file if it
exists, otherwise leave the filesystem unchanged. -/
def FS.unlinkTry (fs : FS) (path : String) : FS :=
  fs.filter (fun p => p.1 ≠ path)

deriving instance DecidableEq for Except

/-- Behavior of the opaque FFmpeg core binary: `exec` takes the command-line
arguments and the current MEMFS contents and yields the exit code and the
MEMFS contents afterwards.  The binary is not in the TypeScript sources, so
the wrappers are verified for an arbitrary behavior of this shape. -/
structure CoreBehavior where
  exec : List String → FS → Int × FS

/-- State of the Node converter (`PcmToMp3Converter` in
`core-mp3-node/dist/esm/index.js`): the private fields `#ffmpeg` (modelled by
the MEMFS contents of the loaded core, `none` when null) and `#loaded`. -/
structure NodeConverter where
  ffmpeg : Option FS
  loaded : Bool
deriving DecidableEq

/-- `new PcmToMp3Converter(config)`: `#ffmpeg = null`, `#loaded = false`. -/
def NodeConverter.fresh : NodeConverter := ⟨none, false⟩

/-- Environment of a Node conversion: the core behavior, and whether loading
the core (reading the wasm binary, requiring `ffmpeg-core.js` and running
`createFFmpegCore`) succeeds. -/
structure NodeEnv where
  core : CoreBehavior
  loadResult : Except String Unit

/-- `#ensureLoaded()`: return at once when `#loaded && #ffmpeg`; otherwise load
the core (which starts with a fresh empty MEMFS) or propagate the load
failure. -/
def nodeEnsureLoaded (env : NodeEnv) (c : NodeConverter) :
    Except String NodeConverter :=
  if c.loaded ∧ c.ffmpeg.isSome then .ok c
  else
    match env.loadResult with
    | .error e => .error e
    | .ok _ => .ok ⟨some [], true⟩

/-- The argument list built by the Node `convert`
(`-f fmt -ar rate -ac ch -i /input.pcm -codec:a libmp3lame -b:a Nk /output.mp3`). -/
def nodeArgs (m : MergedOptions) : List String :=
  ["-f", m.format.tag, "-ar", toString m.sampleRate, "-ac", toString m.channels,
   "-i", "/input.pcm", "-codec:a", "libmp3lame", "-b:a",
   toString m.bitrate ++ "k", "/output.mp3"]

/-- Outcome of one Node `convert` call: the returned value or thrown error, the
converter state afterwards, and the trace of `ffmpeg.exec` invocations (each
entry one argument list). -/
structure NodeConvertResult where
  result : Except String Bytes
  state : NodeConverter
  execTrace : List (List String)
deriving DecidableEq

/-- `PcmToMp3Converter.convert(pcmData, options)` of the Node wrapper,
translated line by line: ensure the core is loaded, merge options over
`DEFAULT_OPTIONS`, return an empty buffer for empty input, otherwise write
`/input.pcm`, run `ffmpeg.exec`, on a nonzero exit code unlink the input
(ignoring unlink errors) and throw, on success read `/output.mp3` and unlink
both files (unguarded in the source, hence fallible here). -/
def nodeConvert (env : NodeEnv) (c : NodeConverter) (pcmData : Bytes)
    (options : PcmToMp3Options) : NodeConvertResult :=
  match nodeEnsureLoaded env c with
  | .error e => ⟨.error e, c, []⟩
  | .ok c₁ =>
    match c₁.ffmpeg with
    | none => ⟨.error "FFmpeg core not loaded", c₁, []⟩
    | some fs =>
      let m := mergeOptions options
      if pcmData.length = 0 then ⟨.ok [], c₁, []⟩
      else
        let fs₁ := fs.writeFile "/input.pcm" pcmData
        let args := nodeArgs m
        let r := env.core.exec args fs₁
        if r.1 ≠ 0 then
          ⟨.error ("FFmpeg conversion failed with code " ++ toString r.1),
           ⟨some (r.2.unlinkTry "/input.pcm"), c₁.loaded⟩, [args]⟩
        else
          match r.2.readFileE "/output.mp3" with
          | .error e => ⟨.error e, ⟨some r.2, c₁.loaded⟩, [args]⟩
          | .ok mp3Data =>
            match r.2.unlinkE "/input.pcm" with
            | .error e => ⟨.error e, ⟨some r.2, c₁.loaded⟩, [args]⟩
            | .ok fs₂ =>
              match fs₂.unlinkE "/output.mp3" with
              | .error e => ⟨.error e, ⟨some fs₂, c₁.loaded⟩, [args]⟩
              | .ok fs₃ => ⟨.ok mp3Data, ⟨some fs₃, c₁.loaded⟩, [args]⟩

/-- `terminate()` of the Node wrapper: `#ffmpeg = null; #loaded = false` (the
callback fields are also nulled; they are modelled separately). -/
def nodeTerminate (_c : NodeConverter) : NodeConverter := ⟨none, false⟩

/-- `createConverter(config)` of the Node wrapper:
`await converter.convert(new Uint8Array(0)).catch(() => {})` — the pre-warming
convert call is made on an empty buffer and any error from it is discarded —
then the converter is returned unconditionally. -/
def nodeCreateConverter (env : NodeEnv) : NodeConverter :=
  (nodeConvert env NodeConverter.fresh [] PcmToMp3Options.empty).state

/-- A caller-side `Uint8Array`: the identity of its underlying `ArrayBuffer`
(needed to track transfer/detachment across `postMessage`) and its bytes. -/
structure U8Array where
  bufferId : Nat
  data : Bytes
deriving DecidableEq

/-- A message posted from the browser main thread to the worker: the message
type string and the list of transferred `ArrayBuffer` identities passed as the
transferables argument of `postMessage`. -/
structure OutMessage where
  mtype : String
  transferList : List Nat
deriving DecidableEq

/-- The buffers detached on the caller side by a sequence of posted messages:
per the structured-clone specification, every buffer in a transfer list is
detached (its `byteLength` drops to 0) when `postMessage` returns. -/
def transferredIds (msgs : List OutMessage) : List Nat :=
  msgs.flatMap (fun msg => msg.transferList)

/-- State of the browser converter (`PcmToMp3Converter` in
`core-mp3/dist/esm/index.js`): `#worker` (outer `Option`: the worker object,
`none` when null) whose own module-level `ffmpeg` variable is the inner
`Option FS` (from `worker.js`), and `#loaded`. -/
structure BrowserConverter where
  worker : Option (Option FS)
  loaded : Bool
deriving DecidableEq

/-- `new PcmToMp3Converter(config)`: `#worker = null`, `#loaded = false`. -/
def BrowserConverter.fresh : BrowserConverter := ⟨none, false⟩

/-- Environment of a browser conversion: the core behavior, and whether the
worker manages to import `ffmpeg-core.js` and run `createFFmpegCore`. -/
structure BrowserEnv where
  core : CoreBehavior
  workerLoadResult : Except String Unit

/-- The argument list built by `convert` in `worker.js`
(`-f fmt -ar rate -ac ch -i input.pcm -b:a Nk -y output.mp3`); unlike the Node
wrapper it names no codec and passes `-y`, and the paths have no leading
slash. -/
def workerArgs (m : MergedOptions) : List String :=
  ["-f", m.format.tag, "-ar", toString m.sampleRate, "-ac", toString m.channels,
   "-i", "input.pcm", "-b:a", toString m.bitrate ++ "k", "-y", "output.mp3"]

/-- `convert(data)` in `worker.js`, translated line by line: fail when the core
is not loaded, write `input.pcm`, run `ffmpeg.exec` and take `ffmpeg.ret` as
exit code, on nonzero exit unlink the input (guarded) and throw, on success
read `output.mp3` (unguarded) and unlink both files (each guarded).  There is
no empty-input check in the worker.  Returns the result or thrown error, the
worker-side `ffmpeg` variable afterwards, and the `exec` trace. -/
def workerConvert (core : CoreBehavior) (w : Option FS) (pcmData : Bytes)
    (m : MergedOptions) :
    Except String Bytes × Option FS × List (List String) :=
  match w with
  | none => (.error "FFmpeg not loaded. Call load() first.", none, [])
  | some fs =>
    let fs₁ := fs.writeFile "input.pcm" pcmData
    let args := workerArgs m
    let r := core.exec args fs₁
    if r.1 ≠ 0 then
      (.error ("FFmpeg exited with code " ++ toString r.1),
       some (r.2.unlinkTry "input.pcm"), [args])
    else
      match r.2.readFileE "output.mp3" with
      | .error e => (.error e, some r.2, [args])
      | .ok mp3Data =>
        let fs₂ := r.2.unlinkTry "input.pcm"
        let fs₃ := fs₂.unlinkTry "output.mp3"
        (.ok mp3Data, some fs₃, [args])

/-- Outcome of one browser `convert` call: result or error, the converter
state afterwards, the messages posted to the worker (with transfer lists), and
the worker-side `exec` trace. -/
structure BrowserConvertResult where
  result : Except String Bytes
  state : BrowserConverter
  messages : List OutMessage
  execTrace : List (List String)
deriving DecidableEq

/-- `#ensureLoaded()` of the browser wrapper: return at once when
`#loaded && #worker`; otherwise create a new worker (fresh module state,
`ffmpeg = null`) and send it a LOAD message — `#send` posts it with an empty
transfer list since its data has no `pcmData` field.  The worker loads the
core (fresh MEMFS) or replies with an ERROR message, which rejects the send
and propagates, leaving `#loaded` false with the worker created. -/
def browserEnsureLoaded (env : BrowserEnv) (c : BrowserConverter) :
    Except String Unit × BrowserConverter × List OutMessage :=
  if c.loaded ∧ c.worker.isSome then (.ok (), c, [])
  else
    let loadMsg : OutMessage := ⟨"LOAD", []⟩
    match env.workerLoadResult with
    | .error e => (.error e, ⟨some none, false⟩, [loadMsg])
    | .ok _ => (.ok (), ⟨some (some []), true⟩, [loadMsg])

/-- `PcmToMp3Converter.convert(pcmData, options)` of the browser wrapper
composed with the worker message handler: ensure the worker is loaded, merge
options over `DEFAULT_OPTIONS`, then `#send` a CONVERT message — whose data
contains `pcmData`, so `#send` pushes `pcmData.buffer` onto the transferables
list unconditionally — and return what the worker answers for it. -/
def browserConvert (env : BrowserEnv) (c : BrowserConverter) (pcm : U8Array)
    (options : PcmToMp3Options) : BrowserConvertResult :=
  match browserEnsureLoaded env c with
  | (.error e, c₁, msgs) => ⟨.error e, c₁, msgs, []⟩
  | (.ok _, c₁, msgs) =>
    let m := mergeOptions options
    match c₁.worker with
    | none => ⟨.error "Worker not initialized", c₁, msgs, []⟩
    | some w =>
      let convMsg : OutMessage := ⟨"CONVERT", [pcm.bufferId]⟩
      let r := workerConvert env.core w pcm.data m
      ⟨r.1, ⟨some r.2.1, c₁.loaded⟩, msgs ++ [convMsg], r.2.2⟩

/-- `terminate()` of the browser wrapper: terminate and null the worker, clear
pending requests, reset `#loaded` (callbacks are modelled separately). -/
def browserTerminate (_c : BrowserConverter) : BrowserConverter := ⟨none, false⟩

/-- `createConverter(config)` of the browser wrapper:
`await converter.convert(new Uint8Array(0), { sampleRate: 8000 }).catch(() => {})`
— the pre-warming convert call is made on an empty buffer with
`sampleRate: 8000` and any error from it is discarded — then the converter is
returned unconditionally. -/
def browserCreateConverter (env : BrowserEnv) : BrowserConverter :=
  (browserConvert env BrowserConverter.fresh ⟨0, []⟩
    ⟨some 8000, none, none, none⟩).state

/-- Modelled from the spec: the FFmpeg core binary (`ffmpeg-core.js` and
`ffmpeg-core.wasm`, produced by the Docker build scripts) is not among the
TypeScript sources.  The spec requires the encoder to be deterministic for a
given input and bitrate (no wall-clock time, no uninitialized memory) with
all `EncoderState` created at pipeline start and discarded at pipeline end, so
one `exec` run is modelled as a pure function of the command line and the
input-file bytes that writes only the output file. -/
structure SpecCore where
  encode : List String → Bytes → Bytes

/-- The `CoreBehavior` induced by a spec-modelled encoder: read the input file
(failing with a nonzero exit code when it is absent), write the encoded bytes
to the output file, exit 0. -/
def SpecCore.toBehavior (sc : SpecCore) (inputPath outputPath : String) :
    CoreBehavior :=
  ⟨fun args fs =>
    match fs.lookup inputPath with
    | none => (1, fs)
    | some d => (0, fs.writeFile outputPath (sc.encode args d))⟩

/-- A Node environment running a spec-modelled encoder, with the core loading
successfully. -/
def specNodeEnv (sc : SpecCore) : NodeEnv :=
  ⟨sc.toBehavior "/input.pcm" "/output.mp3", .ok ()⟩

/-- A fixed four-byte stand-in for an encoded MP3 stream, used in concrete
evaluations. -/
def mp3Stub : Bytes := [255, 251, 144, 0]

/-- Sample core behavior: every `exec` succeeds and writes `mp3Stub` to the
given output path. -/
def coreWriting (outputPath : String) : CoreBehavior :=
  ⟨fun _ fs => (0, fs.writeFile outputPath mp3Stub)⟩

/-- Sample core behavior: every `exec` fails with the given exit code and
leaves the filesystem unchanged. -/
def coreFailing (code : Int) : CoreBehavior :=
  ⟨fun _ fs => (code, fs)⟩

/-- Sample core behavior: `exec` writes a partial output file and then fails
with exit code 1 — the shape of a conversion that dies midway. -/
def corePartial : CoreBehavior :=
  ⟨fun _ fs => (1, fs.writeFile "/output.mp3" [17])⟩

/-- An option set whose sample rate, channel count and bitrate all lie outside
every table the spec allows (rate 12345 is in no MP3 frame table, 7 channels
is neither mono nor stereo, 999 kbps exceeds the bitrate table). -/
def badOpts : PcmToMp3Options := ⟨some 12345, some 7, some 999, none⟩

/-- A log event `{ type, message }` from the FFmpeg core. -/
structure LogEvent where
  ltype : String
  message : String
deriving DecidableEq

/-- A user callback that may throw: `.error` models a thrown exception. -/
abbrev ThrowingCallback (α : Type) := α → Except String Unit

/-- The logger the Node `#ensureLoaded` installs with `ffmpeg.setLogger`:
`({ type, message }) => { if (this.#logCallback) this.#logCallback({type, message}); }`
— the user callback is invoked with no surrounding try/catch, so its outcome
(including a thrown exception) is the outcome of the handler. -/
def nodeLoggerHandler (cb : Option (ThrowingCallback LogEvent))
    (ev : LogEvent) : Except String Unit :=
  match cb with
  | some f => f ev
  | none => .ok ()

/-- The PROGRESS branch of the browser `worker.onmessage` handler:
`if (type === PROGRESS && this.#progressCallback) { this.#progressCallback(progress); return; }`
— again no try/catch around the user callback (progress fractions are modelled
as per-mille naturals to stay within an executable embedding). -/
def browserProgressHandler (cb : Option (ThrowingCallback Nat))
    (progress : Nat) : Except String Unit :=
  match cb with
  | some f => f progress
  | none => .ok ()

/-- The LOG branch of the browser `worker.onmessage` handler:
`if (type === LOG && this.#logCallback) { this.#logCallback(data); return; }` —
no try/catch around the user callback. -/
def browserLogHandler (cb : Option (ThrowingCallback LogEvent))
    (ev : LogEvent) : Except String Unit :=
  match cb with
  | some f => f ev
  | none => .ok ()

/-- A user callback that always throws. -/
def throwingLogCallback : ThrowingCallback LogEvent :=
  fun _ => .error "callback exception"

/-- A progress callback that always throws. -/
def throwingProgressCallback : ThrowingCallback Nat :=
  fun _ => .error "progress callback exception"

/-!  Helper lemmas (shared, not registered for any claim). -/

theorem FS.containsFile_unlinkTry (fs : FS) (path : String) :
    (fs.unlinkTry path).containsFile path = false := by
  have h : List.find? (fun p => p.1 = path)
      (fs.filter (fun p => p.1 ≠ path)) = none := by
    rw [List.find?_eq_none]
    intro p hp
    have := (List.mem_filter.mp hp).2
    simpa using this
  simp [FS.unlinkTry, FS.containsFile, FS.lookup, h]

theorem nodeEnsureLoaded_exists (env : NodeEnv) (c : NodeConverter)
    (h : env.loadResult = .ok ()) :
    ∃ fs c₁, nodeEnsureLoaded env c = .ok c₁ ∧ c₁.ffmpeg = some fs := by
  unfold nodeEnsureLoaded
  by_cases hc : c.loaded ∧ c.ffmpeg.isSome
  · obtain ⟨fs, hfs⟩ := Option.isSome_iff_exists.mp hc.2
    exact ⟨fs, c, by simp [hc], hfs⟩
  · exact ⟨[], ⟨some [], true⟩, by simp [hc, h], rfl⟩

theorem workerConvert_execTrace (core : CoreBehavior) (fs : FS) (pcm : Bytes)
    (m : MergedOptions) :
    (workerConvert core (some fs) pcm m).2.2 = [workerArgs m] := by
  simp only [workerConvert]
  split
  · rfl
  · split <;> rfl

theorem nodeConvert_execTrace (env : NodeEnv) (c : NodeConverter) (pcm : Bytes)
    (opts : PcmToMp3Options) (h : env.loadResult = .ok ()) (hp : pcm ≠ []) :
    (nodeConvert env c pcm opts).execTrace = [nodeArgs (mergeOptions opts)] := by
  obtain ⟨fs, c₁, h₁, h₂⟩ := nodeEnsureLoaded_exists env c h
  unfold nodeConvert
  rw [h₁]
  simp only [h₂]
  rw [if_neg (by simpa using hp)]
  split
  · rfl
  · split
    · rfl
    · split
      · rfl
      · split <;> rfl

/-! Claim theorems. -/

/-- C1 (counterexample): the claim asserts that for every valid option set an
empty input yields empty output with no error and without invoking the
encoder, in the browser converter as well as the Node one.  The browser
wrapper has no empty-input short-circuit: on a freshly created converter with
a successfully loading core, `convert` on an empty buffer forwards it to the
worker, which invokes `ffmpeg.exec` (the trace is nonempty) and returns
whatever FFmpeg wrote to `output.mp3` — here a nonempty stub, not an empty
buffer. -/
theorem C1_empty_input_counterexample :
    (browserConvert ⟨coreWriting "output.mp3", .ok ()⟩ BrowserConverter.fresh
        ⟨0, []⟩ PcmToMp3Options.empty).execTrace ≠ [] ∧
    (browserConvert ⟨coreWriting "output.mp3", .ok ()⟩ BrowserConverter.fresh
        ⟨0, []⟩ PcmToMp3Options.empty).result ≠ .ok ([] : Bytes) := by
  decide

/-- C1 (amended): when the FFmpeg core loads successfully, the Node converter
returns an empty buffer with no error on empty input without invoking the
encoder, for every converter state and every option set; the browser
converter, by contrast, has no empty-input short-circuit and invokes the
encoder even on an empty buffer (shown here from a fresh converter). -/
theorem C1_empty_input_amended :
    (∀ (env : NodeEnv) (c : NodeConverter) (opts : PcmToMp3Options),
      env.loadResult = .ok () →
      (nodeConvert env c [] opts).result = .ok [] ∧
      (nodeConvert env c [] opts).execTrace = []) ∧
    (∀ (env : BrowserEnv) (opts : PcmToMp3Options) (i : Nat),
      env.workerLoadResult = .ok () →
      (browserConvert env BrowserConverter.fresh ⟨i, []⟩ opts).execTrace ≠ []) := by
  constructor
  · intro env c opts h
    obtain ⟨fs, c₁, h₁, h₂⟩ := nodeEnsureLoaded_exists env c h
    unfold nodeConvert
    rw [h₁]
    simp [h₂]
  · intro env opts i h
    simp only [browserConvert, browserEnsureLoaded, BrowserConverter.fresh]
    simp only [h]
    simp [workerConvert_execTrace]

/-- C1 (witness for the amended theorem): both parts applied at concrete
inputs. -/
theorem C1_empty_input_witness :
    (nodeConvert ⟨coreWriting "/output.mp3", .ok ()⟩ NodeConverter.fresh []
        PcmToMp3Options.empty).result = .ok [] ∧
    (browserConvert ⟨coreFailing 0, .ok ()⟩ BrowserConverter.fresh ⟨3, []⟩
        PcmToMp3Options.empty).execTrace ≠ [] :=
  ⟨(C1_empty_input_amended.1 ⟨coreWriting "/output.mp3", .ok ()⟩
      NodeConverter.fresh PcmToMp3Options.empty rfl).1,
   C1_empty_input_amended.2 ⟨coreFailing 0, .ok ()⟩ PcmToMp3Options.empty 3 rfl⟩

/-- C2 (code and its own documentation disagree): the claim — and the
`terminate()` doc comment, which says the converter instance cannot be used
again — require a subsequent `convert` to fail with a "converter terminated"
error.  Evaluating the Node model at the failing input: after `terminate()`, a
`convert` on nonempty input silently reloads the core via `#ensureLoaded`,
invokes the encoder and succeeds, leaving the converter loaded again; no
"converter terminated" error exists anywhere in the sources. -/
theorem C2_terminate_reload_eval :
    nodeConvert ⟨coreWriting "/output.mp3", .ok ()⟩
        (nodeTerminate ⟨some [], true⟩) [1, 2, 3, 4] PcmToMp3Options.empty =
      ⟨.ok mp3Stub, ⟨some [], true⟩, [nodeArgs DEFAULT_OPTIONS]⟩ := by
  decide

/-- C3 (counterexample): the claim asserts an `InvalidConfigurationError`
raised before any processing.  With sample rate 12345, 7 channels and bitrate
999 — all unsupported per the spec — both wrappers write the input file and
invoke the encoder with those very options (the traces are nonempty), and the
failures surface afterwards as each wrapper's FFmpeg exit-code error, not as a
pre-processing configuration error. -/
theorem C3_invalid_config_counterexample :
    (nodeConvert ⟨coreFailing 1, .ok ()⟩ NodeConverter.fresh [1] badOpts).execTrace
        = [nodeArgs ⟨12345, 7, 999, .s16le⟩] ∧
    (nodeConvert ⟨coreFailing 1, .ok ()⟩ NodeConverter.fresh [1] badOpts).result
        = .error "FFmpeg conversion failed with code 1" ∧
    (browserConvert ⟨coreFailing 1, .ok ()⟩ BrowserConverter.fresh ⟨0, [1]⟩
        badOpts).execTrace = [workerArgs ⟨12345, 7, 999, .s16le⟩] ∧
    (browserConvert ⟨coreFailing 1, .ok ()⟩ BrowserConverter.fresh ⟨0, [1]⟩
        badOpts).result = .error "FFmpeg exited with code 1" := by
  decide

/-- C3 (amended): neither wrapper validates the configuration: for every
option set, supported or not, the Node converter on nonempty input merges the
options over the defaults and invokes the encoder exactly once with them, and
the browser converter sends every option set verbatim to the worker, which
invokes the encoder exactly once with them; unsupported combinations are
discovered only by FFmpeg itself, whose nonzero exit code surfaces after the
input has been written and the encoder run, as the worker error
"FFmpeg exited with code N" (the Node wrapper raises
"FFmpeg conversion failed with code N", shown in the counterexample). -/
theorem C3_no_validation_amended :
    (∀ (env : NodeEnv) (c : NodeConverter) (pcm : Bytes)
        (opts : PcmToMp3Options), env.loadResult = .ok () → pcm ≠ [] →
      (nodeConvert env c pcm opts).execTrace = [nodeArgs (mergeOptions opts)]) ∧
    (∀ (env : BrowserEnv) (i : Nat) (pcm : Bytes) (opts : PcmToMp3Options),
      env.workerLoadResult = .ok () →
      (browserConvert env BrowserConverter.fresh ⟨i, pcm⟩ opts).execTrace
        = [workerArgs (mergeOptions opts)]) ∧
    (∀ (code : Int) (i : Nat) (pcm : Bytes) (opts : PcmToMp3Options),
      code ≠ 0 →
      (browserConvert ⟨coreFailing code, .ok ()⟩ BrowserConverter.fresh
          ⟨i, pcm⟩ opts).result
        = .error ("FFmpeg exited with code " ++ toString code)) := by
  refine ⟨nodeConvert_execTrace, ?_, ?_⟩
  · intro env i pcm opts h
    simp only [browserConvert, browserEnsureLoaded, BrowserConverter.fresh]
    simp only [h]
    simp [workerConvert_execTrace]
  · intro code i pcm opts hcode
    simp only [browserConvert, browserEnsureLoaded, BrowserConverter.fresh]
    simp only [workerConvert, coreFailing]
    simp [hcode]

/-- C3 (witness): all three parts of the amended theorem applied at the
unsupported option set `badOpts` on concrete nonempty inputs. -/
theorem C3_no_validation_witness :
    (nodeConvert ⟨coreFailing 1, .ok ()⟩ NodeConverter.fresh [2] badOpts).execTrace
        = [nodeArgs (mergeOptions badOpts)] ∧
    (browserConvert ⟨coreFailing 1, .ok ()⟩ BrowserConverter.fresh ⟨0, [2]⟩
        badOpts).execTrace = [workerArgs (mergeOptions badOpts)] ∧
    (browserConvert ⟨coreFailing 1, .ok ()⟩ BrowserConverter.fresh ⟨0, [2]⟩
        badOpts).result = .error ("FFmpeg exited with code " ++ toString (1 : Int)) :=
  ⟨C3_no_validation_amended.1 ⟨coreFailing 1, .ok ()⟩ NodeConverter.fresh [2]
      badOpts rfl (by decide),
   C3_no_validation_amended.2.1 ⟨coreFailing 1, .ok ()⟩ 0 [2] badOpts rfl,
   C3_no_validation_amended.2.2 1 0 [2] badOpts (by decide)⟩

/-- C4 (counterexample): the claim requires all virtual-filesystem files
created during a failing conversion to be released before the error returns.
With a core that writes a partial output file and then exits 1, the Node
`convert` surfaces the exit-code error but only unlinks `/input.pcm`: the
partially written `/output.mp3` is still in the MEMFS held by the converter
when `convert` returns. -/
theorem C4_output_leak_counterexample :
    (nodeConvert ⟨corePartial, .ok ()⟩ NodeConverter.fresh [9]
        PcmToMp3Options.empty).result
      = .error "FFmpeg conversion failed with code 1" ∧
    (nodeConvert ⟨corePartial, .ok ()⟩ NodeConverter.fresh [9]
        PcmToMp3Options.empty).state.ffmpeg
      = some [("/output.mp3", [17])] := by
  decide

/-- C4 (amended): on a failing `exec`, the Node `convert` surfaces a single
terminal error (so no partial MP3 is returned), and the MEMFS it keeps is
exactly the post-exec filesystem with the input file removed: the input file
it wrote is gone, but whatever else FFmpeg created — in particular a partially
written output file — is not removed. -/
theorem C4_failure_cleanup_amended (core : CoreBehavior) (fs : FS) (pcm : Bytes)
    (opts : PcmToMp3Options) (hp : pcm ≠ [])
    (hcode : (core.exec (nodeArgs (mergeOptions opts))
        (fs.writeFile "/input.pcm" pcm)).1 ≠ 0) :
    (nodeConvert ⟨core, .ok ()⟩ ⟨some fs, true⟩ pcm opts).result
        = .error ("FFmpeg conversion failed with code " ++
            toString (core.exec (nodeArgs (mergeOptions opts))
              (fs.writeFile "/input.pcm" pcm)).1) ∧
    (nodeConvert ⟨core, .ok ()⟩ ⟨some fs, true⟩ pcm opts).state.ffmpeg
        = some (((core.exec (nodeArgs (mergeOptions opts))
            (fs.writeFile "/input.pcm" pcm)).2).unlinkTry "/input.pcm") ∧
    (((core.exec (nodeArgs (mergeOptions opts))
        (fs.writeFile "/input.pcm" pcm)).2).unlinkTry
          "/input.pcm").containsFile "/input.pcm" = false := by
  have hload : nodeEnsureLoaded ⟨core, .ok ()⟩ ⟨some fs, true⟩
      = .ok ⟨some fs, true⟩ := rfl
  have h1 : nodeConvert ⟨core, .ok ()⟩ ⟨some fs, true⟩ pcm opts =
      ⟨.error ("FFmpeg conversion failed with code " ++
          toString (core.exec (nodeArgs (mergeOptions opts))
            (fs.writeFile "/input.pcm" pcm)).1),
       ⟨some (((core.exec (nodeArgs (mergeOptions opts))
           (fs.writeFile "/input.pcm" pcm)).2).unlinkTry "/input.pcm"), true⟩,
       [nodeArgs (mergeOptions opts)]⟩ := by
    simp only [nodeConvert, hload]
    rw [if_neg (by simpa using hp), if_pos hcode]
  exact ⟨by rw [h1], by rw [h1], FS.containsFile_unlinkTry _ "/input.pcm"⟩

/-- C4 (witness): the amended theorem applied to the partial-output core on a
concrete input. -/
theorem C4_failure_cleanup_witness :
    (nodeConvert ⟨corePartial, .ok ()⟩ ⟨some [], true⟩ [9]
        PcmToMp3Options.empty).result
      = .error ("FFmpeg conversion failed with code " ++
          toString (corePartial.exec (nodeArgs (mergeOptions PcmToMp3Options.empty))
            (FS.writeFile [] "/input.pcm" [9])).1) :=
  (C4_failure_cleanup_amended corePartial [] [9] PcmToMp3Options.empty
    (by decide) (by decide)).1

/-- C5 (counterexample): the claim requires every exception thrown by an
`onProgress` or `onLog` callback to be caught and ignored.  The handlers wrap
the user callback in no try/catch: with a throwing callback each handler
propagates the exception instead of returning normally. -/
theorem C5_throwing_callback_counterexample :
    nodeLoggerHandler (some throwingLogCallback) ⟨"info", "frame=1"⟩
        = .error "callback exception" ∧
    browserProgressHandler (some throwingProgressCallback) 500
        = .error "progress callback exception" ∧
    browserLogHandler (some throwingLogCallback) ⟨"stderr", "frame=2"⟩
        ≠ .ok () := by
  decide

/-- C5 (amended): the logging and progress handlers invoke the registered
callback directly, with no surrounding try/catch: the outcome of the handler
is exactly the outcome of the callback, so a thrown exception propagates out
of the handler (into the `exec` call that emitted the log line in Node, and
out of `worker.onmessage` in the browser) rather than being caught and
ignored by the pipeline. -/
theorem C5_callback_passthrough_amended :
    (∀ (f : ThrowingCallback LogEvent) (ev : LogEvent),
        nodeLoggerHandler (some f) ev = f ev) ∧
    (∀ (g : ThrowingCallback Nat) (p : Nat),
        browserProgressHandler (some g) p = g p) ∧
    (∀ (f : ThrowingCallback LogEvent) (ev : LogEvent),
        browserLogHandler (some f) ev = f ev) :=
  ⟨fun _ _ => rfl, fun _ _ => rfl, fun _ _ => rfl⟩

/-- C6: the merged options of every `convert` call take exactly the defaults
`sampleRate = 44100`, `channels = 1`, `bitrate = 128`, `format = s16le` for
omitted fields, and any explicitly supplied field overrides its default. -/
theorem C6_default_options (o : PcmToMp3Options) :
    (o.sampleRate = none → (mergeOptions o).sampleRate = 44100) ∧
    (o.channels = none → (mergeOptions o).channels = 1) ∧
    (o.bitrate = none → (mergeOptions o).bitrate = 128) ∧
    (o.format = none → (mergeOptions o).format = .s16le) ∧
    (∀ v, o.sampleRate = some v → (mergeOptions o).sampleRate = v) ∧
    (∀ v, o.channels = some v → (mergeOptions o).channels = v) ∧
    (∀ v, o.bitrate = some v → (mergeOptions o).bitrate = v) ∧
    (∀ f, o.format = some f → (mergeOptions o).format = f) := by
  obtain ⟨sr, ch, br, fm⟩ := o
  cases sr <;> cases ch <;> cases br <;> cases fm <;>
    simp [mergeOptions, DEFAULT_OPTIONS]

/-- C6 (witness): defaults and overrides at a concrete option set omitting
`sampleRate` and `bitrate` while supplying `channels = 2` and `format = u8`. -/
theorem C6_default_options_witness :
    (mergeOptions ⟨none, some 2, none, some .u8⟩).sampleRate = 44100 ∧
    (mergeOptions ⟨none, some 2, none, some .u8⟩).channels = 2 ∧
    (mergeOptions ⟨none, some 2, none, some .u8⟩).bitrate = 128 ∧
    (mergeOptions ⟨none, some 2, none, some .u8⟩).format = .u8 :=
  ⟨(C6_default_options ⟨none, some 2, none, some .u8⟩).1 rfl,
   (C6_default_options ⟨none, some 2, none, some .u8⟩).2.2.2.2.2.1 2 rfl,
   (C6_default_options ⟨none, some 2, none, some .u8⟩).2.2.1 rfl,
   (C6_default_options ⟨none, some 2, none, some .u8⟩).2.2.2.2.2.2.2 .u8 rfl⟩

/-- C7: the accepted format tags are exactly the seven strings
`s16le, s16be, s24le, s32le, f32le, f64le, u8`, with these exact spellings:
the `PcmFormat` union maps onto this tag list, every format is in the
enumeration, and a string is accepted as a format tag precisely when it is one
of the seven. -/
theorem C7_format_tags :
    allPcmFormats.map PcmFormat.tag
        = ["s16le", "s16be", "s24le", "s32le", "f32le", "f64le", "u8"] ∧
    (∀ f : PcmFormat, f ∈ allPcmFormats) ∧
    (∀ s : String, (PcmFormat.ofTag s).isSome = true ↔
        s ∈ ["s16le", "s16be", "s24le", "s32le", "f32le", "f64le", "u8"]) := by
  refine ⟨by decide, fun f => by cases f <;> decide,
    fun s => ⟨fun h => ?_, fun hs => ?_⟩⟩
  · obtain ⟨f, _, htag⟩ := List.find?_isSome.mp h
    have hts : f.tag = s := by simpa using htag
    rw [← hts]
    cases f <;> decide
  · simp only [List.mem_cons, List.not_mem_nil, or_false] at hs
    rcases hs with rfl | rfl | rfl | rfl | rfl | rfl | rfl <;> decide

theorem nodeConvert_spec_empty (sc : SpecCore) (pcm : Bytes)
    (opts : PcmToMp3Options) (hp : pcm.length = 0) :
    nodeConvert (specNodeEnv sc) ⟨some [], true⟩ pcm opts
      = ⟨.ok [], ⟨some [], true⟩, []⟩ := by
  have hload : nodeEnsureLoaded (specNodeEnv sc) ⟨some [], true⟩
      = .ok ⟨some [], true⟩ := rfl
  simp only [nodeConvert, hload]
  rw [if_pos hp]

theorem nodeConvert_spec_run (sc : SpecCore) (pcm : Bytes)
    (opts : PcmToMp3Options) (hp : ¬ pcm.length = 0) :
    nodeConvert (specNodeEnv sc) ⟨some [], true⟩ pcm opts
      = ⟨.ok (sc.encode (nodeArgs (mergeOptions opts)) pcm), ⟨some [], true⟩,
         [nodeArgs (mergeOptions opts)]⟩ := by
  have hload : nodeEnsureLoaded (specNodeEnv sc) ⟨some [], true⟩
      = .ok ⟨some [], true⟩ := rfl
  simp only [nodeConvert, hload]
  rw [if_neg hp]
  rfl

/-- C8: with the FFmpeg core modelled from the spec as a deterministic
encoder (a pure function of the command line and the input-file bytes), the
wrapper adds no nondeterminism: running `convert` twice on the same bytes with
the same options — the second call starting from the converter state the first
one left behind — yields the identical result, in particular byte-identical
MP3 output.  The wrapper passes the core nothing besides the merged options
and the input bytes (no clock, no uninitialized state), and a successful
conversion returns the MEMFS to its prior state. -/
theorem C8_convert_deterministic (sc : SpecCore) (pcm : Bytes)
    (opts : PcmToMp3Options) :
    (nodeConvert (specNodeEnv sc)
        (nodeConvert (specNodeEnv sc) NodeConverter.fresh pcm opts).state
        pcm opts).result
      = (nodeConvert (specNodeEnv sc) NodeConverter.fresh pcm opts).result := by
  have hfresh : nodeConvert (specNodeEnv sc) NodeConverter.fresh pcm opts
      = nodeConvert (specNodeEnv sc) ⟨some [], true⟩ pcm opts := rfl
  by_cases hp : pcm.length = 0
  · rw [hfresh, nodeConvert_spec_empty sc pcm opts hp]
    show (nodeConvert (specNodeEnv sc) ⟨some [], true⟩ pcm opts).result
        = Except.ok []
    rw [nodeConvert_spec_empty sc pcm opts hp]
  · rw [hfresh, nodeConvert_spec_run sc pcm opts hp]
    show (nodeConvert (specNodeEnv sc) ⟨some [], true⟩ pcm opts).result
        = Except.ok (sc.encode (nodeArgs (mergeOptions opts)) pcm)
    rw [nodeConvert_spec_run sc pcm opts hp]

/-- C9 (counterexample): the claim asserts the input buffer is transferred on
every `convert` call with nonempty `pcmData`.  When the core fails to load,
`#ensureLoaded` rejects before `#send` ever posts the CONVERT message: the
only message posted is LOAD, whose transfer list is empty, so the caller's
buffer (id 5) is never transferred and stays intact. -/
theorem C9_load_failure_counterexample :
    (browserConvert ⟨coreWriting "output.mp3", .error "failed to load core"⟩
        BrowserConverter.fresh ⟨5, [1, 2]⟩ PcmToMp3Options.empty).messages
      = [⟨"LOAD", []⟩] ∧
    5 ∉ transferredIds (browserConvert
        ⟨coreWriting "output.mp3", .error "failed to load core"⟩
        BrowserConverter.fresh ⟨5, [1, 2]⟩ PcmToMp3Options.empty).messages := by
  decide

/-- C9 (amended): provided `#ensureLoaded` succeeds (the worker loads, or the
converter is already loaded), every `convert` call posts a CONVERT message
whose transfer list is exactly the input's `ArrayBuffer`, so `postMessage`
detaches the caller's buffer (its `byteLength` drops to 0).  When loading
fails, `convert` rejects before posting CONVERT and the buffer is not
transferred. -/
theorem C9_transfer_amended (env : BrowserEnv) (c : BrowserConverter)
    (pcm : U8Array) (opts : PcmToMp3Options)
    (hload : env.workerLoadResult = .ok ()
      ∨ (c.loaded = true ∧ c.worker.isSome = true))
    (hne : pcm.data ≠ []) :
    (⟨"CONVERT", [pcm.bufferId]⟩ : OutMessage)
        ∈ (browserConvert env c pcm opts).messages ∧
    pcm.bufferId ∈ transferredIds (browserConvert env c pcm opts).messages := by
  by_cases hc : c.loaded ∧ c.worker.isSome
  · obtain ⟨w, hw⟩ := Option.isSome_iff_exists.mp hc.2
    refine ⟨?_, ?_⟩ <;>
      simp [browserConvert, browserEnsureLoaded, hc.1, hw, transferredIds]
  · rcases hload with h | h
    · simp only [browserConvert, browserEnsureLoaded, if_neg hc, h]
      exact ⟨by simp, by simp [transferredIds]⟩
    · exact absurd h hc

/-- C9 (witness): the amended theorem at a loaded-successfully environment and
a nonempty concrete input with buffer id 7. -/
theorem C9_transfer_witness :
    (⟨"CONVERT", [7]⟩ : OutMessage) ∈ (browserConvert ⟨coreFailing 0, .ok ()⟩
        BrowserConverter.fresh ⟨7, [1]⟩ PcmToMp3Options.empty).messages ∧
    7 ∈ transferredIds (browserConvert ⟨coreFailing 0, .ok ()⟩
        BrowserConverter.fresh ⟨7, [1]⟩ PcmToMp3Options.empty).messages :=
  C9_transfer_amended ⟨coreFailing 0, .ok ()⟩ BrowserConverter.fresh ⟨7, [1]⟩
    PcmToMp3Options.empty (Or.inl rfl) (by decide)

/-- C10: both `createConverter` implementations discard any error from their
pre-warming `convert` call (the `.catch` swallowing load failures) and return
the converter handle unconditionally — in the model they are total functions
into converter states, never rejecting — and the returned handle is loaded
exactly when the core load succeeded, so after a load failure the handle is
returned in an unloaded state. -/
theorem C10_createConverter_resolves :
    (∀ env : NodeEnv, (nodeCreateConverter env).loaded = env.loadResult.isOk) ∧
    (∀ env : BrowserEnv,
        (browserCreateConverter env).loaded = env.workerLoadResult.isOk) := by
  constructor
  · intro env
    cases h : env.loadResult with
    | error e =>
      simp [nodeCreateConverter, nodeConvert, nodeEnsureLoaded,
        NodeConverter.fresh, h, Except.isOk, Except.toBool]
    | ok u =>
      cases u
      simp [nodeCreateConverter, nodeConvert, nodeEnsureLoaded,
        NodeConverter.fresh, h, Except.isOk, Except.toBool]
  · intro env
    cases h : env.workerLoadResult with
    | error e =>
      simp [browserCreateConverter, browserConvert, browserEnsureLoaded,
        BrowserConverter.fresh, h, Except.isOk, Except.toBool]
    | ok u =>
      cases u
      simp [browserCreateConverter, browserConvert, browserEnsureLoaded,
        BrowserConverter.fresh, h, Except.isOk, Except.toBool]
